import Mathlib

/-!
# Verification of the artha-dashboard client-side synchronization layer

Shallow embedding of the browser JavaScript modules
`static/js/transactions.js`, `static/js/notes.js`, `static/js/chart.js`
and `static/js/toast.js`.  Pure computations (header construction, the
`parseFloat` validation, id extraction) are translated into Lean
functions; the asynchronous handlers are modelled as explicit
state-transition functions from (DOM state, server response) to
(new DOM state, emitted network calls, emitted toasts).  Read-only
refresh fetches (`updateChartData`, `updateSummaryUI`) that follow the
mutating success paths are recorded in the call logs as GET calls.
-/

namespace Artha

/-- A JavaScript number as produced by `parseFloat`: either NaN, an
infinity, or a finite value (represented exactly as a rational; the
claims under study depend only on NaN-ness and on which textual value
is carried, never on float rounding). -/
inductive JsNum where
  | nan : JsNum
  | inf : Bool → JsNum   -- `true` means negative infinity
  | fin : ℚ → JsNum
deriving DecidableEq, Repr

/-- Request body shapes used by the client. -/
inductive ReqBody where
  /-- no body (delete / undo posts) -/
  | empty : ReqBody
  /-- multipart form data (add-transaction form) -/
  | formData (description amount : String) : ReqBody
  /-- JSON `order` payload of a reorder call -/
  | jsonOrder (ids : List Nat) : ReqBody
  /-- JSON payload of `/update_transaction/{id}` -/
  | jsonTxUpdate (description : String) (amount : JsNum) (txType : String) : ReqBody
  /-- JSON payload of `/update_note/{id}` -/
  | jsonNote (content : String) : ReqBody
deriving DecidableEq, Repr

/-- One network request issued by the client. -/
structure NetCall where
  url : String
  method : String
  headers : List (String × String)
  body : ReqBody
deriving DecidableEq, Repr

/-- Whether a call carries a header with the given name. -/
def hasHeader (c : NetCall) (name : String) : Bool :=
  c.headers.any (fun h => h.1 == name)

/-- A toast notification request: message, severity, and whether it
carries an inline action control (Undo). -/
structure ToastMsg where
  message : String
  severity : String
  hasAction : Bool := false
deriving DecidableEq, Repr

/-! ## CSRF headers

`transactions.js` (`csrfHeaders`) attaches three headers; `notes.js`
(`buildHeaders`) attaches the AJAX marker and a single CSRF header
name, plus a content type for JSON bodies. -/

/-- `transactions.js` lines 19–29: headers attached to every mutating
transaction call.  The token argument stands for the value read from
the `meta[name="csrf-token"]` tag by `getCsrfToken`. -/
def csrfHeaders (token : String) : List (String × String) :=
  [("X-Requested-With", "XMLHttpRequest"),
   ("X-CSRFToken", token),
   ("X-CSRF-Token", token)]

/-- `notes.js` `ajaxHeader`. -/
def ajaxHeader : List (String × String) :=
  [("X-Requested-With", "XMLHttpRequest")]

/-- `notes.js` `buildHeaders(csrfToken, isJson)`: spreads `ajaxHeader`,
adds `X-CSRFToken`, and adds `Content-Type: application/json` when the
body is JSON.  (Note: unlike `csrfHeaders` in `transactions.js`, no
`X-CSRF-Token` entry is produced.) -/
def buildHeaders (csrfToken : String) (isJson : Bool) : List (String × String) :=
  ajaxHeader ++ [("X-CSRFToken", csrfToken)] ++
    (if isJson then [("Content-Type", "application/json")] else [])

/-! ## Toast queue (`toast.js`)

The tracked active set is the module-global `toastQueue` array.
`showToast` lazily creates the container, evicts the oldest entry
(`toastQueue.shift()` followed by `removeToast`, which only starts the
exit animation) whenever the tracked count has reached `MAX_TOASTS`,
and then pushes the new toast.  We model the tracked queue as a list
with the oldest element at the head (JS `push` appends, `shift`
removes the head). -/

def MAX_TOASTS : Nat := 5

/-- `toast.js` lines 14–117 restricted to the tracked-queue effect of
one `showToast` call: evict the head when the cap is reached, then
append the new toast. -/
def showToastQueue (q : List ToastMsg) (t : ToastMsg) : List ToastMsg :=
  (if MAX_TOASTS ≤ q.length then q.drop 1 else q) ++ [t]

/-- Folding a whole sequence of `showToast` calls over an initial
(empty, at page load) tracked queue. -/
def runToasts (ts : List ToastMsg) : List ToastMsg :=
  ts.foldl showToastQueue []

lemma showToastQueue_length_le (q : List ToastMsg) (t : ToastMsg)
    (hq : q.length ≤ MAX_TOASTS) : (showToastQueue q t).length ≤ MAX_TOASTS := by
  unfold showToastQueue
  by_cases h : MAX_TOASTS ≤ q.length
  · rw [if_pos h]
    simp only [List.length_append, List.length_drop, List.length_cons, List.length_nil,
      MAX_TOASTS] at *
    omega
  · rw [if_neg h]
    simp only [List.length_append, List.length_cons, List.length_nil, MAX_TOASTS] at *
    omega

lemma runToasts_aux (ts : List ToastMsg) (q : List ToastMsg)
    (hq : q.length ≤ MAX_TOASTS) : (ts.foldl showToastQueue q).length ≤ MAX_TOASTS := by
  induction ts generalizing q with
  | nil => simpa using hq
  | cons t ts ih =>
      simp only [List.foldl_cons]
      exact ih _ (showToastQueue_length_le q t hq)

/-! ## `parseFloat` (`saveTransaction` validation)

`saveTransaction` computes `parseFloat(amountEl.textContent.trim().replace("$", ""))`
and aborts when `Number.isNaN` holds of the result.  We embed the
relevant fragment of the JavaScript `parseFloat` grammar: leading
whitespace is skipped, then an optional sign, then either the literal
`Infinity` or a decimal significand with optional fraction and
optional exponent; the longest valid prefix is parsed and NaN results
exactly when no digits (and no `Infinity`) are found. -/

namespace JsParse

/-- Numeric value of a digit string, most significant first. -/
def digitsVal (ds : List Char) : Nat :=
  ds.foldl (fun a c => a * 10 + (c.toNat - 48)) 0

/-- Split a leading run of decimal digits from the input. -/
def takeDigits : List Char → List Char × List Char
  | [] => ([], [])
  | c :: rest =>
      if c.isDigit then
        let p := takeDigits rest
        (c :: p.1, p.2)
      else ([], c :: rest)

/-- Read an optional leading sign; `true` means negative. -/
def readSign : List Char → Bool × List Char
  | c :: rest =>
      if c = '-' then (true, rest)
      else if c = '+' then (false, rest)
      else (false, c :: rest)
  | [] => (false, [])

/-- Read an optional exponent part after the `e`/`E` marker; an
exponent with no digits is ignored (yields 0), as `parseFloat`
backtracks over it. -/
def readExp (cs : List Char) : Int :=
  let sp := readSign cs
  let dp := takeDigits sp.2
  if dp.1.isEmpty then 0
  else if sp.1 then -(digitsVal dp.1 : Int) else (digitsVal dp.1 : Int)

end JsParse

/-- JavaScript whitespace as far as `trim` and `parseFloat` are
concerned (the inputs under study only use the ASCII cases). -/
def isJsWs (c : Char) : Bool :=
  c == ' ' || c == '\t' || c == '\n' || c == '\r' || c == '\x0b' || c == '\x0c'

/-- JavaScript `parseFloat` on an input string: leading whitespace is
skipped before the optional sign. -/
def jsParseFloat (s : String) : JsNum :=
  let sp := JsParse.readSign (s.data.dropWhile isJsWs)
  let neg := sp.1
  let cs := sp.2
  if cs.take 8 = "Infinity".data then JsNum.inf neg
  else
    let ipp := JsParse.takeDigits cs
    let fpp :=
      match ipp.2 with
      | c :: rest => if c = '.' then JsParse.takeDigits rest else ([], ipp.2)
      | [] => ([], [])
    if ipp.1.isEmpty && fpp.1.isEmpty then JsNum.nan
    else
      let mant : ℚ :=
        (JsParse.digitsVal ipp.1 : ℚ) + (JsParse.digitsVal fpp.1 : ℚ) / ((10 : ℚ) ^ fpp.1.length)
      let expv : Int :=
        match fpp.2 with
        | c :: rest => if c = 'e' || c = 'E' then JsParse.readExp rest else 0
        | [] => 0
      let v : ℚ := mant * (10 : ℚ) ^ expv
      JsNum.fin (if neg then -v else v)

/-- JavaScript `s.trim()`: strip leading and trailing whitespace. -/
def jsTrim (s : String) : String :=
  ⟨(((s.data.dropWhile isJsWs).reverse.dropWhile isJsWs).reverse : List Char)⟩

/-- Drop the first occurrence of `pat` from a character list. -/
def replaceFirstChars (pat : List Char) : List Char → List Char
  | [] => []
  | c :: rest =>
      if pat.isPrefixOf (c :: rest) then (c :: rest).drop pat.length
      else c :: replaceFirstChars pat rest

/-- First-occurrence deletion, as JavaScript `s.replace(pat, "")` with
a string pattern. -/
def replaceFirst (s pat : String) : String :=
  ⟨replaceFirstChars pat.data s.data⟩

/-! ## Endpoint calls -/

/-- GET of `/api/finance_totals` issued by `updateChartData`
(`chart.js`) and `updateSummaryUI` (`transactions.js`). -/
def totalsGet : NetCall :=
  { url := "/api/finance_totals", method := "GET", headers := ajaxHeader, body := .empty }

/-- The pair of read-only refresh fetches (`updateChartData` then
`updateSummaryUI`) run at the end of the transaction success paths. -/
def refreshGets : List NetCall := [totalsGet, totalsGet]

/-- `/update_transaction/{id}` (from `saveTransaction`). -/
def txUpdateCall (token : String) (id : Nat) (desc : String) (amount : JsNum)
    (ty : String) : NetCall :=
  { url := "/update_transaction/" ++ toString id, method := "POST",
    headers := ("Content-Type", "application/json") :: csrfHeaders token,
    body := .jsonTxUpdate desc amount ty }

/-- POST of the row's delete-form action (from `attachDeleteListener`). -/
def txDeleteCall (token : String) (formAction : String) : NetCall :=
  { url := formAction, method := "POST", headers := csrfHeaders token, body := .empty }

/-- POST `/undo_delete_transaction` (from `undoDeleteTransaction`). -/
def txUndoCall (token : String) : NetCall :=
  { url := "/undo_delete_transaction", method := "POST",
    headers := csrfHeaders token, body := .empty }

/-- POST `/reorder_transactions` (from `persistTransactionOrder`). -/
def reorderTxCall (token : String) (ids : List Nat) : NetCall :=
  { url := "/reorder_transactions", method := "POST",
    headers := ("Content-Type", "application/json") :: csrfHeaders token,
    body := .jsonOrder ids }

/-- POST of the add-transaction form action (from
`handleAddTransactionForm`). -/
def txAddCall (token : String) (formAction desc amt : String) : NetCall :=
  { url := formAction, method := "POST", headers := csrfHeaders token,
    body := .formData desc amt }

/-- POST of a note row's delete-form action (from `initDeleteWithUndo`). -/
def noteDeleteCall (token : String) (url : String) : NetCall :=
  { url := url, method := "POST", headers := buildHeaders token false, body := .empty }

/-- POST `/undo_delete_note` (from the Undo toast action closure). -/
def noteUndoCall (token : String) : NetCall :=
  { url := "/undo_delete_note", method := "POST",
    headers := buildHeaders token false, body := .empty }

/-- POST `/update_note/{id}` (from `initInlineEdit` in `notes.js`). -/
def noteUpdateCall (token : String) (noteId : Nat) (content : String) : NetCall :=
  { url := "/update_note/" ++ toString noteId, method := "POST",
    headers := buildHeaders token true, body := .jsonNote content }

/-- POST `/reorder_notes` (from `initReorder`). -/
def reorderNotesCall (token : String) (ids : List Nat) : NetCall :=
  { url := "/reorder_notes", method := "POST",
    headers := buildHeaders token true, body := .jsonOrder ids }

/-- POST `/update_note/{id}` issued by the `saveNoteContent` variant of
`notes.js` (the debounced blur-save with retry counter), whose fetch
attaches only `Content-Type` and the AJAX marker. -/
def noteSaveCallV1 (noteId : Nat) (content : String) : NetCall :=
  { url := "/update_note/" ++ toString noteId, method := "POST",
    headers := [("Content-Type", "application/json"),
                ("X-Requested-With", "XMLHttpRequest")],
    body := .jsonNote content }

/-- Extract the `order` payload of a JSON body, if it is one. -/
def orderPayload : ReqBody → Option (List Nat)
  | .jsonOrder ids => some ids
  | _ => none

/-- The payload of the last call to the given reorder endpoint within
a call log, if any such call was made. -/
def lastReorderOrder (endpointUrl : String) (calls : List NetCall) : Option (List Nat) :=
  match (calls.filter (fun c => c.url == endpointUrl)).getLast? with
  | some c => orderPayload c.body
  | none => none

/-! ## Transactions list synchronizer (`transactions.js`)

The DOM sequence `li[data-id]` inside `#tx-list` is modelled as a list
of rows carrying their `data-id`; the async handlers become functions
from (DOM state, server response) to (new DOM state, call log, toasts). -/

/-- A transaction row (`li[data-id]` inside `#tx-list`). -/
structure TxRow where
  id : Nat
deriving DecidableEq, Repr

/-- Result of one membership-changing handler run. -/
structure OpResult where
  rows : List TxRow
  calls : List NetCall
  toasts : List ToastMsg
deriving DecidableEq, Repr

/-- `transactions.js` lines 76–96 `persistTransactionOrder`: read the
`data-id` sequence from the DOM; return before any fetch when it is
empty, otherwise POST it to `/reorder_transactions`.  (The `!res.ok`
toast of this function is handled by its caller model; the claims
under study concern the issued call.) -/
def persistTransactionOrder (token : String) (rows : List TxRow) : List NetCall :=
  let ids := rows.map TxRow.id
  if ids.isEmpty then [] else [reorderTxCall token ids]

/-- `handleAddTransactionForm` success path (validation passed,
`res.ok`, a `li[data-id]` was parsed from the returned fragment, and
`#tx-list` exists): append the new row, rebind listeners, toast, then
persist the order and refresh chart and summary. -/
def addTransactionSuccess (token formAction : String) (rows : List TxRow)
    (newRow : TxRow) (desc amt : String) : OpResult :=
  let rows2 := rows ++ [newRow]
  { rows := rows2,
    calls := txAddCall token formAction desc amt ::
      (persistTransactionOrder token rows2 ++ refreshGets),
    toasts := [{ message := "Transaction added!", severity := "success" }] }

/-- `attachDeleteListener` submit-handler success path (`res.ok`):
remove the row, toast (with Undo action when the server signals
`can_undo`), then persist the order and refresh chart and summary. -/
def txDeleteSuccess (token formAction : String) (rows : List TxRow) (rowId : Nat)
    (canUndo : Bool) : OpResult :=
  let rows2 := rows.eraseP (fun r => r.id == rowId)
  { rows := rows2,
    calls := txDeleteCall token formAction ::
      (persistTransactionOrder token rows2 ++ refreshGets),
    toasts := [{ message := "Transaction deleted", severity := "info",
                 hasAction := canUndo }] }

/-- Server response to `/undo_delete_transaction` as seen by
`undoDeleteTransaction`: a non-2xx status (with optional JSON
`message`), or a 2xx whose `row_html` may or may not parse to a
`li[data-id]` node. -/
inductive UndoResp where
  | fail (msg : Option String)
  | ok (rowHtml : Option TxRow)
deriving DecidableEq, Repr

/-- `transactions.js` lines 135–185 `undoDeleteTransaction`: on
failure, an error toast and no DOM change; on success with a parsed
row, prepend it to `#tx-list`, rebind, toast, persist the order and
refresh; on success without a parsable row, an error toast and the
refresh fetches only. -/
def undoDeleteTransaction (token : String) (rows : List TxRow) : UndoResp → OpResult
  | .fail msg =>
      { rows := rows, calls := [txUndoCall token],
        toasts := [{ message := msg.getD "Undo failed", severity := "error" }] }
  | .ok none =>
      { rows := rows, calls := txUndoCall token :: refreshGets,
        toasts := [{ message := "Transaction restored, but UI could not render the row.",
                     severity := "error" }] }
  | .ok (some row) =>
      let rows2 := row :: rows
      { rows := rows2,
        calls := txUndoCall token :: (persistTransactionOrder token rows2 ++ refreshGets),
        toasts := [{ message := "Transaction restored.", severity := "success" }] }

/-! ## Debounced save (`debounceSaveTransaction`, `saveTransaction`) -/

/-- The blur/change event captured by `debounceSaveTransaction`; it
identifies the row the eventual `saveTransaction(e)` will read. -/
structure DebEvent where
  itemId : Nat
deriving DecidableEq, Repr

/-- The module-global `saveTimeout` slot: at most one pending
debounced save exists for the whole module.
`debounceSaveTransaction` (lines 32–35) clears whatever timeout is
pending and installs the new one. -/
def scheduleDebounce (_pending : Option DebEvent) (e : DebEvent) : Option DebEvent :=
  some e

/-- An editable transaction row as read back from the DOM by
`saveTransaction`: `textContent` of the description and amount cells
and the value of the type select. -/
structure TxEditRow where
  id : Nat
  desc : String
  amountText : String
  txType : String
deriving DecidableEq, Repr

/-- Calls and toasts emitted by the synchronous part of a handler. -/
structure ReqOutcome where
  calls : List NetCall
  toasts : List ToastMsg
deriving DecidableEq, Repr

/-- `transactions.js` lines 304–340, request phase of
`saveTransaction`: trim the description, strip the first `$` from the
trimmed amount text, `parseFloat` it; when `Number.isNaN` holds, clear
the busy state, show the validation toast and stop with no fetch;
otherwise POST the JSON payload to `/update_transaction/{id}`. -/
def saveTransactionRequest (token : String) (row : TxEditRow) : ReqOutcome :=
  let desc := jsTrim row.desc
  let amountText := replaceFirst (jsTrim row.amountText) "$"
  let amount := jsParseFloat amountText
  if amount = JsNum.nan then
    { calls := [],
      toasts := [{ message := "Invalid amount entered", severity := "error" }] }
  else
    { calls := [txUpdateCall token row.id desc amount row.txType], toasts := [] }

/-- Firing of the debounce timeout: run `saveTransaction` on the
pending event's row as currently in the DOM, and clear the slot.  When
nothing is pending, nothing runs. -/
def fireDebounce (token : String) (rowOf : Nat → TxEditRow) :
    Option DebEvent → ReqOutcome × Option DebEvent
  | none => ({ calls := [], toasts := [] }, none)
  | some e => (saveTransactionRequest token (rowOf e.itemId), none)

/-! ## Notes list (`notes.js`, `initDeleteWithUndo` / `initReorder`)

Note rows (`li.note-row` with `data-id`) are modelled by their ids. -/

/-- `row.nextElementSibling` of the first row with the given id, at
delete time (captured by the Undo closure as `rowNext`). -/
def listNextAfter : List Nat → Nat → Option Nat
  | [], _ => none
  | a :: rest, rowId => if a = rowId then rest.head? else listNextAfter rest rowId

/-- Result of the notes delete submit handler. -/
structure NoteDeleteResult where
  rows : List Nat
  calls : List NetCall
  toasts : List ToastMsg
  /-- `rowNext` captured for the Undo closure. -/
  capturedNext : Option Nat
deriving DecidableEq, Repr

/-- `notes.js` `initDeleteWithUndo` submit handler, success path
(`res.ok`): capture `rowNext`, POST the form action, remove the row,
and raise the "Note deleted" toast with the Undo action.  No reorder
call is issued. -/
def noteDeleteSuccess (token url : String) (rows : List Nat) (rowId : Nat) :
    NoteDeleteResult :=
  { rows := rows.erase rowId,
    calls := [noteDeleteCall token url],
    toasts := [{ message := "Note deleted", severity := "success", hasAction := true }],
    capturedNext := listNextAfter rows rowId }

/-- Server response to `/undo_delete_note` as seen by the Undo action
closure: non-2xx (with optional message), 2xx without `row_html`, or
2xx whose `row_html` renders the restored row. -/
inductive NoteUndoResp where
  | fail (msg : Option String)
  | okNoHtml
  | ok (restoredId : Nat)
deriving DecidableEq, Repr

/-- Insert `x` immediately before the first occurrence of `anchor`
(`rowNext.insertAdjacentHTML("beforebegin", …)`). -/
def insertBeforeFirst : List Nat → Nat → Nat → List Nat
  | [], _, x => [x]
  | a :: rest, anchor, x =>
      if a = anchor then x :: a :: rest else a :: insertBeforeFirst rest anchor x

/-- The Undo toast action of `initDeleteWithUndo`: POST
`/undo_delete_note`; on failure or missing `row_html`, an error toast
and no DOM change; on success, reinsert the rendered row before the
captured `rowNext` when that node is still in the list, otherwise
append it at the end.  No reorder call is issued. -/
def noteUndoAction (token : String) (rows : List Nat) (capturedNext : Option Nat) :
    NoteUndoResp → List Nat × List NetCall × List ToastMsg
  | .fail msg =>
      (rows, [noteUndoCall token],
       [{ message := msg.getD "Undo failed", severity := "error" }])
  | .okNoHtml =>
      (rows, [noteUndoCall token],
       [{ message := "Undo succeeded but no HTML returned", severity := "error" }])
  | .ok rid =>
      let rows2 :=
        match capturedNext with
        | some nxt => if nxt ∈ rows then insertBeforeFirst rows nxt rid else rows ++ [rid]
        | none => rows ++ [rid]
      (rows2, [noteUndoCall token], [])

/-! ## Note autosave with retry (`saveNoteContent`) -/

/-- Server behavior of one `/update_note/{id}` attempt. -/
inductive NoteResp where
  | ok
  | httpErr (msg : Option String)
  | netErr
deriving DecidableEq, Repr

def MAX_RETRIES : Nat := 2

/-- `notes.js` `saveNoteContent` after its guards: one fetch per
attempt; on `!res.ok` or a thrown network error, recurse immediately
with `retries + 1` while `retries < MAX_RETRIES`, else surface the
toast.  `resps n` is the server's behavior on the attempt whose
`retries` counter is `n`. -/
def saveNoteRun (noteId : Nat) (content : String) (resps : Nat → NoteResp)
    (retries : Nat) : List NetCall × List ToastMsg :=
  let call := noteSaveCallV1 noteId content
  match resps retries with
  | .ok => ([call], [{ message := "Note saved", severity := "info" }])
  | .httpErr msg =>
      if _h : retries < MAX_RETRIES then
        let r := saveNoteRun noteId content resps (retries + 1)
        (call :: r.1, r.2)
      else ([call], [{ message := msg.getD "Failed to save note", severity := "error" }])
  | .netErr =>
      if _h : retries < MAX_RETRIES then
        let r := saveNoteRun noteId content resps (retries + 1)
        (call :: r.1, r.2)
      else ([call], [{ message := "Error saving note", severity := "error" }])
termination_by MAX_RETRIES + 1 - retries

/-- `saveNoteContent(noteId, content, el)` entry: return with no fetch
when the id is missing or the trimmed content is empty, else run the
attempt loop from `retries = 0` on the trimmed content. -/
def saveNoteContent (noteId : Option Nat) (content : String)
    (resps : Nat → NoteResp) : List NetCall × List ToastMsg :=
  match noteId with
  | none => ([], [])
  | some nid =>
      if jsTrim content = "" then ([], [])
      else saveNoteRun nid (jsTrim content) resps 0

/-! ## Chart refresher (`chart.js`, `updateChartData`) -/

/-- A thrown JavaScript error, distinguished by its `name`. -/
inductive JsError where
  | abortError
  | typeError (msg : String)
  | jsError (msg : String)
deriving DecidableEq, Repr

def JsError.name : JsError → String
  | .abortError => "AbortError"
  | .typeError _ => "TypeError"
  | .jsError _ => "Error"

/-- A JSON value, as far as `typeof v === "number"` can see. -/
inductive Jsv where
  | num (v : ℚ)
  | str (s : String)
  | nullv
  | boolv (b : Bool)
  | undef
deriving DecidableEq, Repr

def Jsv.isNumber : Jsv → Bool
  | .num _ => true
  | _ => false

/-- A `/api/finance_totals` HTTP response: status and decoded fields. -/
structure TotalsResp where
  ok : Bool
  income : Jsv
  expense : Jsv
deriving DecidableEq, Repr

/-- Outcome of the awaited fetch inside `updateChartData`: rejected
with `AbortError` (superseded), rejected with a network `TypeError`,
or resolved with a response. -/
inductive FetchResult where
  | aborted
  | netFail
  | got (r : TotalsResp)
deriving DecidableEq, Repr

/-- The `try` block of `updateChartData` (lines 191–210): throw on
non-2xx, throw on non-number `income`/`expense`, else yield the pair. -/
def chartFetchBody : FetchResult → Except JsError (ℚ × ℚ)
  | .aborted => .error .abortError
  | .netFail => .error (.typeError "Failed to fetch")
  | .got r =>
      if !r.ok then .error (.jsError "Network response was not ok")
      else
        match r.income, r.expense with
        | .num i, .num e => .ok (i, e)
        | _, _ => .error (.jsError "Invalid data format")

/-- Observable outcome of one `updateChartData` run (with the canvas
and `Chart` present). -/
structure ChartRunResult where
  calls : List NetCall
  fallbackDrawn : Bool
  chartUpdated : Option (ℚ × ℚ)
deriving DecidableEq, Repr

/-- `updateChartData` per completion of its fetch: the `catch` block
draws the "Failed to load chart" fallback exactly when the thrown
error's `name` differs from `"AbortError"`.  Exactly one fetch is
issued per run — the function contains no retry. -/
def updateChartDataRun (fr : FetchResult) : ChartRunResult :=
  { calls := [totalsGet],
    fallbackDrawn :=
      match chartFetchBody fr with
      | .ok _ => false
      | .error e => e.name != "AbortError",
    chartUpdated :=
      match chartFetchBody fr with
      | .ok p => some p
      | .error _ => none }

/-- Reading of the spec's failure taxonomy for the chart: network
error, non-2xx status, or a payload whose income or expense is not a
number; cancellation excluded. -/
def specNonAbortFailure : FetchResult → Bool
  | .aborted => false
  | .netFail => true
  | .got r => !r.ok || !r.income.isNumber || !r.expense.isNumber

/-- The module-global `currentAbortController` discipline of
`chart.js` lines 164–186: controllers are numbered in creation order;
entering `updateChartData` aborts the current one (if any) and
installs a fresh one. -/
structure ChartGlobals where
  nextId : Nat
  current : Option Nat
  abortedIds : List Nat
deriving DecidableEq, Repr

def abortCurrent (g : ChartGlobals) : ChartGlobals :=
  match g.current with
  | some c => { g with abortedIds := c :: g.abortedIds, current := none }
  | none => g

/-- `if (currentAbortController) currentAbortController.abort();
currentAbortController = new AbortController();` — returns the new
state and the id of the controller guarding this run's fetch. -/
def enterRefresh (g : ChartGlobals) : ChartGlobals × Nat :=
  let g2 := abortCurrent g
  ({ g2 with current := some g2.nextId, nextId := g2.nextId + 1 }, g2.nextId)

/-! ## Delete submit re-entrancy (`attachDeleteListener`) -/

/-- Binding state of one `.tx-delete-form`: `dataset.bound` plus the
number of submit listeners actually attached. -/
structure DelFormBinding where
  bound : Bool
  listeners : Nat
deriving DecidableEq, Repr

/-- `transactions.js` lines 190–196: return if already bound,
otherwise mark bound and add the submit listener. -/
def attachDeleteListener (f : DelFormBinding) : DelFormBinding :=
  if f.bound then f else { bound := true, listeners := f.listeners + 1 }

/-- The visual state of a transaction row during the delete handler. -/
structure TxRowUI where
  id : Nat
  ariaBusy : Bool
  classes : List String
deriving DecidableEq, Repr

/-- Synchronous prefix of the delete submit handler (lines 197–211):
find the closest `li[data-id]` (abort silently if the form is
detached), set `aria-busy` and the highlight class, and issue the
delete fetch.  The handler performs no check of any in-flight state
before fetching. -/
def deleteSubmitStart (token formAction : String) :
    Option TxRowUI → Option TxRowUI × List NetCall
  | none => (none, [])
  | some r =>
      (some { r with ariaBusy := true, classes := r.classes ++ ["bg-yellow-100"] },
       [txDeleteCall token formAction])

/-- Two submit events dispatched on the same row before any response
arrives: the call log accumulated across both handler runs. -/
def twoDeleteSubmits (token formAction : String) (row : TxRowUI) : List NetCall :=
  let s1 := deleteSubmitStart token formAction (some row)
  let s2 := deleteSubmitStart token formAction s1.1
  s1.2 ++ s2.2

/-- Response phase of `saveTransaction` (`transactions.js` lines
340–378): success reverts the highlight, rewrites the amount cell,
toasts, and triggers the two refresh fetches; both failure branches
only toast — no further fetch, hence no client-side retry. -/
inductive TxSaveResp where
  | ok (msg : Option String)
  | httpErr (msg : Option String)
  | netErr
deriving DecidableEq, Repr

def saveTransactionResponse : TxSaveResp → ReqOutcome
  | .ok msg =>
      { calls := refreshGets,
        toasts := [{ message := msg.getD "Transaction updated successfully",
                     severity := "success" }] }
  | .httpErr msg =>
      { calls := [],
        toasts := [{ message := msg.getD "Transaction update failed",
                     severity := "error" }] }
  | .netErr =>
      { calls := [],
        toasts := [{ message := "Network error while updating transaction",
                     severity := "error" }] }

/-! ## Auxiliary lemmas -/

lemma insertBeforeFirst_length (l : List Nat) (a x : Nat) :
    (insertBeforeFirst l a x).length = l.length + 1 := by
  induction l with
  | nil => rfl
  | cons b rest ih =>
      unfold insertBeforeFirst
      by_cases h : b = a
      · rw [if_pos h]; rfl
      · rw [if_neg h]; simp [ih]

lemma mem_insertBeforeFirst (l : List Nat) (a x : Nat) :
    x ∈ insertBeforeFirst l a x := by
  induction l with
  | nil => simp [insertBeforeFirst]
  | cons b rest ih =>
      unfold insertBeforeFirst
      by_cases h : b = a
      · rw [if_pos h]; exact List.mem_cons_self x (b :: rest)
      · rw [if_neg h]; exact List.mem_cons_of_mem b ih

lemma filter_refreshGets_tx :
    refreshGets.filter (fun c => c.url == "/reorder_transactions") = [] := rfl

/-- Shape of every transaction success-path call log that ends in a
reorder followed by the two refresh GETs: the last reorder payload is
the persisted id list. -/
lemma lastReorder_tx_shape (token : String) (c0 : NetCall) (ids : List Nat) :
    lastReorderOrder "/reorder_transactions"
      (c0 :: ([reorderTxCall token ids] ++ refreshGets)) = some ids := by
  unfold lastReorderOrder
  rw [List.filter_cons, List.filter_append, filter_refreshGets_tx]
  have hr : ((reorderTxCall token ids).url == "/reorder_transactions") = true := rfl
  by_cases hc : (c0.url == "/reorder_transactions") = true
  · simp [hc, hr, List.filter_cons, orderPayload, reorderTxCall]
  · simp only [Bool.not_eq_true] at hc
    simp [hc, hr, List.filter_cons, orderPayload, reorderTxCall]

lemma lastReorderOrder_singleton (u : String) (c : NetCall) :
    lastReorderOrder u [c] = if (c.url == u) = true then orderPayload c.body else none := by
  unfold lastReorderOrder
  by_cases hc : (c.url == u) = true
  · simp [List.filter_cons, hc]
  · simp only [Bool.not_eq_true] at hc
    simp [List.filter_cons, hc]

/-- A call log whose entries never target the given endpoint yields no
reorder payload. -/
lemma lastReorderOrder_eq_none (u : String) (calls : List NetCall)
    (h : ∀ c ∈ calls, (c.url == u) = false) : lastReorderOrder u calls = none := by
  unfold lastReorderOrder
  have : calls.filter (fun c => c.url == u) = [] := by
    rw [List.filter_eq_nil_iff]
    intro c hc
    simp [h c hc]
  rw [this]
  rfl

/-! ## Claim theorems -/

/-- C6: the notification queue never tracks more than `MAX_TOASTS = 5`
concurrent toasts — enqueueing while 5 are tracked first evicts the
oldest (the head of the queue, FIFO) before appending the new one, so
the tracked set's size stays at most 5 after every enqueue, and any
sequence of enqueues starting from the empty page-load queue keeps the
tracked size at most 5. -/
theorem toast_queue_capped :
    (∀ (q : List ToastMsg) (t : ToastMsg), q.length ≤ MAX_TOASTS →
        (showToastQueue q t).length ≤ MAX_TOASTS) ∧
    (∀ (q : List ToastMsg) (t : ToastMsg), q.length = MAX_TOASTS →
        showToastQueue q t = q.drop 1 ++ [t]) ∧
    (∀ ts : List ToastMsg, (runToasts ts).length ≤ MAX_TOASTS) := by
  refine ⟨showToastQueue_length_le, fun q t h => ?_, fun ts => runToasts_aux ts [] (by simp)⟩
  unfold showToastQueue
  rw [if_pos (le_of_eq h.symm)]

/-- Witness for C6 at a concrete full queue: the sixth toast evicts
the oldest and the tracked size stays 5. -/
theorem toast_queue_capped_witness :
    (showToastQueue
        [⟨"m1", "info", false⟩, ⟨"m2", "info", false⟩, ⟨"m3", "info", false⟩,
         ⟨"m4", "info", false⟩, ⟨"m5", "info", false⟩] ⟨"m6", "error", false⟩).length
        ≤ MAX_TOASTS ∧
    showToastQueue
        [⟨"m1", "info", false⟩, ⟨"m2", "info", false⟩, ⟨"m3", "info", false⟩,
         ⟨"m4", "info", false⟩, ⟨"m5", "info", false⟩] ⟨"m6", "error", false⟩ =
      [⟨"m2", "info", false⟩, ⟨"m3", "info", false⟩, ⟨"m4", "info", false⟩,
       ⟨"m5", "info", false⟩, ⟨"m6", "error", false⟩] := by
  constructor
  · exact toast_queue_capped.1 _ _ (by decide)
  · rw [toast_queue_capped.2.1 _ _ (by decide)]
    rfl

/-- C10: `persistTransactionOrder` is a no-op on an id-less (empty)
list — it returns before issuing any call — and deleting the last
remaining transaction leaves an empty list and produces no reorder
payload in the success path's call log. -/
theorem persist_order_empty_noop :
    (∀ token : String, persistTransactionOrder token [] = []) ∧
    (∀ (token formAction : String) (r : TxRow) (canUndo : Bool),
        (txDeleteSuccess token formAction [r] r.id canUndo).rows = [] ∧
        lastReorderOrder "/reorder_transactions"
          (txDeleteSuccess token formAction [r] r.id canUndo).calls = none) := by
  refine ⟨fun token => rfl, fun token formAction r canUndo => ?_⟩
  have herase : ([r].eraseP (fun x => x.id == r.id)) = [] := by
    simp [List.eraseP_cons]
  constructor
  · simp [txDeleteSuccess, herase]
  · unfold txDeleteSuccess
    rw [herase]
    unfold lastReorderOrder persistTransactionOrder
    by_cases hc : (formAction == "/reorder_transactions") = true
    · simp [List.filter_cons, List.filter_append, filter_refreshGets_tx, hc,
        txDeleteCall, orderPayload]
    · simp only [Bool.not_eq_true] at hc
      simp [List.filter_cons, List.filter_append, filter_refreshGets_tx, hc,
        txDeleteCall, orderPayload]

/-- C7 counterexample: the note update call built from `buildHeaders`
is a mutating (POST) call that does not carry the `X-CSRF-Token`
header, falsifying "every mutating call carries all three outbound
headers". -/
theorem note_headers_counterexample :
    (noteUpdateCall "tok" 5 "hello").method = "POST" ∧
    hasHeader (noteUpdateCall "tok" 5 "hello") "X-CSRF-Token" = false ∧
    hasHeader (noteUpdateCall "tok" 5 "hello") "X-CSRFToken" = true := by
  decide

/-- C7 amended: every mutating transaction call (add, update, delete,
undo, reorder) carries `X-Requested-With`, `X-CSRFToken` and
`X-CSRF-Token`; the note mutating calls built via `buildHeaders`
(update, delete, undo, reorder) carry `X-Requested-With` and
`X-CSRFToken` but not `X-CSRF-Token`. -/
theorem mutating_headers_amended :
    (∀ (token formAction desc amt : String),
        hasHeader (txAddCall token formAction desc amt) "X-Requested-With" = true ∧
        hasHeader (txAddCall token formAction desc amt) "X-CSRFToken" = true ∧
        hasHeader (txAddCall token formAction desc amt) "X-CSRF-Token" = true) ∧
    (∀ (token : String) (id : Nat) (desc : String) (amount : JsNum) (ty : String),
        hasHeader (txUpdateCall token id desc amount ty) "X-Requested-With" = true ∧
        hasHeader (txUpdateCall token id desc amount ty) "X-CSRFToken" = true ∧
        hasHeader (txUpdateCall token id desc amount ty) "X-CSRF-Token" = true) ∧
    (∀ (token formAction : String),
        hasHeader (txDeleteCall token formAction) "X-Requested-With" = true ∧
        hasHeader (txDeleteCall token formAction) "X-CSRFToken" = true ∧
        hasHeader (txDeleteCall token formAction) "X-CSRF-Token" = true) ∧
    (∀ token : String,
        hasHeader (txUndoCall token) "X-Requested-With" = true ∧
        hasHeader (txUndoCall token) "X-CSRFToken" = true ∧
        hasHeader (txUndoCall token) "X-CSRF-Token" = true) ∧
    (∀ (token : String) (ids : List Nat),
        hasHeader (reorderTxCall token ids) "X-Requested-With" = true ∧
        hasHeader (reorderTxCall token ids) "X-CSRFToken" = true ∧
        hasHeader (reorderTxCall token ids) "X-CSRF-Token" = true) ∧
    (∀ (token : String) (nid : Nat) (content : String),
        hasHeader (noteUpdateCall token nid content) "X-Requested-With" = true ∧
        hasHeader (noteUpdateCall token nid content) "X-CSRFToken" = true ∧
        hasHeader (noteUpdateCall token nid content) "X-CSRF-Token" = false) ∧
    (∀ (token url : String),
        hasHeader (noteDeleteCall token url) "X-Requested-With" = true ∧
        hasHeader (noteDeleteCall token url) "X-CSRFToken" = true ∧
        hasHeader (noteDeleteCall token url) "X-CSRF-Token" = false) ∧
    (∀ token : String,
        hasHeader (noteUndoCall token) "X-Requested-With" = true ∧
        hasHeader (noteUndoCall token) "X-CSRFToken" = true ∧
        hasHeader (noteUndoCall token) "X-CSRF-Token" = false) ∧
    (∀ (token : String) (ids : List Nat),
        hasHeader (reorderNotesCall token ids) "X-Requested-With" = true ∧
        hasHeader (reorderNotesCall token ids) "X-CSRFToken" = true ∧
        hasHeader (reorderNotesCall token ids) "X-CSRF-Token" = false) := by
  refine ⟨fun _ _ _ _ => ⟨rfl, rfl, rfl⟩, fun _ _ _ _ _ => ⟨rfl, rfl, rfl⟩,
    fun _ _ => ⟨rfl, rfl, rfl⟩, fun _ => ⟨rfl, rfl, rfl⟩, fun _ _ => ⟨rfl, rfl, rfl⟩,
    fun _ _ _ => ⟨rfl, rfl, rfl⟩, fun _ _ => ⟨rfl, rfl, rfl⟩, fun _ => ⟨rfl, rfl, rfl⟩,
    fun _ _ => ⟨rfl, rfl, rfl⟩⟩

/-- C8 counterexample: a second submit on a row whose delete is
already in flight (`aria-busy` set, highlight applied) still issues a
delete fetch, and two submits before any response produce two
concurrent delete calls for the same row. -/
theorem delete_reentrancy_counterexample :
    (twoDeleteSubmits "tok" "/delete_transaction/4"
        { id := 4, ariaBusy := false, classes := [] }).length = 2 ∧
    (deleteSubmitStart "tok" "/delete_transaction/4"
        (some { id := 4, ariaBusy := true, classes := ["bg-yellow-100"] })).2 =
      [txDeleteCall "tok" "/delete_transaction/4"] := by
  decide

/-- C8 amended: the submit listener itself is attached at most once
per form (the `dataset.bound` guard makes `attachDeleteListener`
idempotent), but each submit event on a present row issues a delete
fetch unconditionally — there is no in-flight (`deleting`) state check,
so a second submission during an in-flight delete issues a second
fetch. -/
theorem delete_binding_amended :
    (∀ f : DelFormBinding, attachDeleteListener (attachDeleteListener f) = attachDeleteListener f) ∧
    (∀ f : DelFormBinding, f.bound = true → attachDeleteListener f = f) ∧
    (∀ (token formAction : String) (r : TxRowUI),
        (deleteSubmitStart token formAction (some r)).2 = [txDeleteCall token formAction]) := by
  refine ⟨fun f => ?_, fun f h => ?_, fun _ _ _ => rfl⟩
  · unfold attachDeleteListener
    by_cases h : f.bound
    · rw [if_pos h, if_pos h]
    · rw [if_neg h]
      rfl
  · unfold attachDeleteListener
    rw [if_pos h]

/-- Witness for C8's amended statement at a concrete bound form. -/
theorem delete_binding_amended_witness :
    attachDeleteListener { bound := true, listeners := 1 } =
      { bound := true, listeners := 1 } := by
  exact delete_binding_amended.2.1 { bound := true, listeners := 1 } rfl

/-- C1 counterexample: deleting note 2 from the notes list [1, 2, 3]
succeeds and changes list membership, yet the success path issues no
reorder-persist call at all — its call log contains no call to
`/reorder_notes`. -/
theorem notes_delete_no_reorder_counterexample :
    (noteDeleteSuccess "tok" "/delete_note/2" [1, 2, 3] 2).rows = [1, 3] ∧
    (noteDeleteSuccess "tok" "/delete_note/2" [1, 2, 3] 2).calls.filter
        (fun c => c.url == "/reorder_notes") = [] ∧
    lastReorderOrder "/reorder_notes"
        (noteDeleteSuccess "tok" "/delete_note/2" [1, 2, 3] 2).calls = none := by
  refine ⟨?_, rfl, rfl⟩
  decide

/-- C1 amended: on the transactions list every membership-changing
success path (create, delete, undo) runs `persistTransactionOrder` on
the then-current DOM rows, so the last reorder payload equals the
resulting DOM id sequence — except that an emptied list issues no
reorder call (the empty-guard of `persistTransactionOrder`); the notes
list issues no reorder-persist at all after delete or undo (its
reorder call is only sent from the drag handler). -/
theorem membership_reorder_amended :
    (∀ (token formAction desc amt : String) (rows : List TxRow) (newRow : TxRow),
        lastReorderOrder "/reorder_transactions"
            (addTransactionSuccess token formAction rows newRow desc amt).calls =
          some ((addTransactionSuccess token formAction rows newRow desc amt).rows.map
            TxRow.id)) ∧
    (∀ (token formAction : String) (rows : List TxRow) (rowId : Nat) (canUndo : Bool),
        lastReorderOrder "/reorder_transactions"
            (txDeleteSuccess token formAction rows rowId canUndo).calls =
          (if (txDeleteSuccess token formAction rows rowId canUndo).rows.isEmpty then
            none
          else
            some ((txDeleteSuccess token formAction rows rowId canUndo).rows.map
              TxRow.id))) ∧
    (∀ (token : String) (rows : List TxRow) (row : TxRow),
        lastReorderOrder "/reorder_transactions"
            (undoDeleteTransaction token rows (.ok (some row))).calls =
          some ((undoDeleteTransaction token rows (.ok (some row))).rows.map TxRow.id)) ∧
    (∀ (token url : String) (rows : List Nat) (rowId : Nat),
        lastReorderOrder "/reorder_notes"
          (noteDeleteSuccess token url rows rowId).calls = none) ∧
    (∀ (token : String) (rows : List Nat) (capturedNext : Option Nat)
        (resp : NoteUndoResp),
        lastReorderOrder "/reorder_notes"
          (noteUndoAction token rows capturedNext resp).2.1 = none) := by
  refine ⟨?_, ?_, ?_, ?_, ?_⟩
  · intro token formAction desc amt rows newRow
    unfold addTransactionSuccess persistTransactionOrder
    have hne : ((rows ++ [newRow]).map TxRow.id).isEmpty = false := by
      simp [List.isEmpty_iff]
    simp only [hne, Bool.false_eq_true, if_false]
    exact lastReorder_tx_shape token _ _
  · intro token formAction rows rowId canUndo
    unfold txDeleteSuccess persistTransactionOrder
    by_cases he : (rows.eraseP (fun r => r.id == rowId)) = []
    · rw [he]
      simp only [List.map_nil, List.isEmpty_nil, List.nil_append, if_true, List.isEmpty_nil]
      unfold lastReorderOrder
      by_cases hc : (formAction == "/reorder_transactions") = true
      · simp [List.filter_cons, List.filter_append, filter_refreshGets_tx, hc,
          txDeleteCall, orderPayload]
      · simp only [Bool.not_eq_true] at hc
        simp [List.filter_cons, List.filter_append, filter_refreshGets_tx, hc,
          txDeleteCall, orderPayload]
    · have hne : ((rows.eraseP (fun r => r.id == rowId)).map TxRow.id).isEmpty = false := by
        simp [List.isEmpty_iff, he]
      have hne2 : (rows.eraseP (fun r => r.id == rowId)).isEmpty = false := by
        simp [List.isEmpty_iff, he]
      simp only [hne, hne2, Bool.false_eq_true, if_false]
      exact lastReorder_tx_shape token _ _
  · intro token rows row
    unfold undoDeleteTransaction persistTransactionOrder
    have hne : ((row :: rows).map TxRow.id).isEmpty = false := by
      simp [List.isEmpty_iff]
    simp only [hne, Bool.false_eq_true, if_false]
    exact lastReorder_tx_shape token _ _
  · intro token url rows rowId
    unfold noteDeleteSuccess
    rw [lastReorderOrder_singleton]
    by_cases hc : ((noteDeleteCall token url).url == "/reorder_notes") = true
    · rw [if_pos hc]; rfl
    · rw [if_neg hc]
  · intro token rows capturedNext resp
    cases resp <;>
      · simp only [noteUndoAction]
        apply lastReorderOrder_eq_none
        intro c hc
        simp only [List.mem_singleton] at hc
        subst hc
        rfl

/-- C4 counterexample: deleting note 2 from the notes list [1, 2, 3]
and undoing before expiry restores the row at its former position
(before the captured next sibling 3), not at the top of the list. -/
theorem notes_undo_position_counterexample :
    (noteDeleteSuccess "tok" "/delete_note/2" [1, 2, 3] 2).rows = [1, 3] ∧
    (noteDeleteSuccess "tok" "/delete_note/2" [1, 2, 3] 2).capturedNext = some 3 ∧
    (noteUndoAction "tok" [1, 3] (some 3) (.ok 2)).1 = [1, 2, 3] ∧
    (noteUndoAction "tok" [1, 3] (some 3) (.ok 2)).1.head? ≠ some 2 := by
  refine ⟨?_, rfl, ?_, ?_⟩ <;> decide

/-- C4 amended: a transaction undo before expiry prepends exactly the
restored row at the top of the list, and a failed (already-consumed)
undo leaves the list unchanged with an error toast; a notes undo
restores exactly one row, reinserted before the captured former next
sibling when that row is still present (otherwise appended at the
end), and a failed notes undo leaves the list unchanged with an error
toast. -/
theorem undo_restore_amended :
    (∀ (token : String) (rows : List TxRow) (row : TxRow),
        (undoDeleteTransaction token rows (.ok (some row))).rows = row :: rows ∧
        (undoDeleteTransaction token rows (.ok (some row))).rows.head? = some row ∧
        (undoDeleteTransaction token rows (.ok (some row))).rows.length =
          rows.length + 1) ∧
    (∀ (token : String) (rows : List TxRow) (msg : Option String),
        (undoDeleteTransaction token rows (.fail msg)).rows = rows ∧
        (undoDeleteTransaction token rows (.fail msg)).toasts =
          [{ message := msg.getD "Undo failed", severity := "error" }]) ∧
    (∀ (token : String) (rows : List Nat) (capturedNext : Option Nat) (rid : Nat),
        (noteUndoAction token rows capturedNext (.ok rid)).1.length =
          rows.length + 1 ∧
        rid ∈ (noteUndoAction token rows capturedNext (.ok rid)).1) ∧
    (∀ (token : String) (rows : List Nat) (n rid : Nat), n ∈ rows →
        (noteUndoAction token rows (some n) (.ok rid)).1 =
          insertBeforeFirst rows n rid) ∧
    (∀ (token : String) (rows : List Nat) (capturedNext : Option Nat)
        (msg : Option String),
        (noteUndoAction token rows capturedNext (.fail msg)).1 = rows ∧
        (noteUndoAction token rows capturedNext (.fail msg)).2.2 =
          [{ message := msg.getD "Undo failed", severity := "error" }]) := by
  refine ⟨fun token rows row => ⟨rfl, rfl, rfl⟩, fun token rows msg => ⟨rfl, rfl⟩,
    ?_, ?_, fun token rows capturedNext msg => ⟨rfl, rfl⟩⟩
  · intro token rows capturedNext rid
    unfold noteUndoAction
    cases capturedNext with
    | none => simp
    | some n =>
        by_cases hn : n ∈ rows
        · simp only [hn, if_pos]
          exact ⟨insertBeforeFirst_length rows n rid, mem_insertBeforeFirst rows n rid⟩
        · simp [hn]
  · intro token rows n rid hn
    unfold noteUndoAction
    simp [hn]

/-- Witness for C4's amended statement on a concrete run: delete 2
from [1, 2, 3], undo restores it before 3; a failed second undo
changes nothing. -/
theorem undo_restore_amended_witness :
    (noteUndoAction "tok" [1, 3] (some 3) (.ok 2)).1 = insertBeforeFirst [1, 3] 3 2 ∧
    (noteUndoAction "tok" [1, 2, 3] (some 3) (.fail none)).1 = [1, 2, 3] ∧
    (undoDeleteTransaction "tok" [⟨9⟩] (.ok (some ⟨4⟩))).rows = [⟨4⟩, ⟨9⟩] := by
  refine ⟨undo_restore_amended.2.2.2.1 "tok" [1, 3] 3 2 (by decide),
    (undo_restore_amended.2.2.2.2 "tok" [1, 2, 3] (some 3) none).1,
    (undo_restore_amended.1 "tok" [⟨9⟩] ⟨4⟩).1⟩

/-- Concrete DOM contents for the debounce scenarios: row `i` holds
description `"d"` and amount text `"5"`. -/
def demoRowOf : Nat → TxEditRow :=
  fun i => { id := i, desc := "d", amountText := "5", txType := "expense" }

/-- C2 counterexample: the debounce slot is module-global, not
per-key.  Scheduling a save for Item 2 while a save for Item 1 is
pending replaces it, and when the timer fires only Item 2's update is
sent — Item 1's pending debounced update is cancelled even though it
belongs to a different Item. -/
theorem debounce_cross_item_counterexample :
    scheduleDebounce (scheduleDebounce none ⟨1⟩) ⟨2⟩ = some ⟨2⟩ ∧
    ((fireDebounce "tok" demoRowOf
        (scheduleDebounce (scheduleDebounce none ⟨1⟩) ⟨2⟩)).1.calls.map NetCall.url) =
      ["/update_transaction/2"] ∧
    ((fireDebounce "tok" demoRowOf
        (scheduleDebounce (scheduleDebounce none ⟨1⟩) ⟨2⟩)).1.calls.all
      (fun c => c.url != "/update_transaction/1")) = true := by
  refine ⟨rfl, ?_, ?_⟩ <;> decide

/-- C2 amended: `debounceSaveTransaction` keeps a single module-global
pending save; scheduling always cancels and replaces whatever is
pending, regardless of which Item it belongs to.  Consequently two
updates within the debounce window — same Item or not — produce, when
the timer fires, exactly one network call, reading the target row's
then-current (latest) content. -/
theorem debounce_last_wins_amended :
    (∀ (pending : Option DebEvent) (e : DebEvent), scheduleDebounce pending e = some e) ∧
    (∀ (token : String) (rowOf : Nat → TxEditRow) (e1 e2 : DebEvent),
        fireDebounce token rowOf (scheduleDebounce (scheduleDebounce none e1) e2) =
          (saveTransactionRequest token (rowOf e2.itemId), none)) ∧
    (∀ (token : String) (rowOf : Nat → TxEditRow) (e : DebEvent),
        jsParseFloat (replaceFirst (jsTrim (rowOf e.itemId).amountText) "$") ≠ JsNum.nan →
        (fireDebounce token rowOf (some e)).1.calls =
          [txUpdateCall token (rowOf e.itemId).id (jsTrim (rowOf e.itemId).desc)
            (jsParseFloat (replaceFirst (jsTrim (rowOf e.itemId).amountText) "$"))
            ((rowOf e.itemId).txType)]) := by
  refine ⟨fun _ _ => rfl, fun _ _ _ _ => rfl, ?_⟩
  intro token rowOf e h
  simp only [fireDebounce, saveTransactionRequest]
  rw [if_neg h]

/-- Witness for C2's amended statement: a single fire after two
schedules issues one call carrying row 2's current content. -/
theorem debounce_last_wins_amended_witness :
    (fireDebounce "tok" demoRowOf (some ⟨2⟩)).1.calls =
      [txUpdateCall "tok" (demoRowOf 2).id (jsTrim (demoRowOf 2).desc)
        (jsParseFloat (replaceFirst (jsTrim (demoRowOf 2).amountText) "$"))
        ((demoRowOf 2).txType)] := by
  exact debounce_last_wins_amended.2.2 "tok" demoRowOf ⟨2⟩ (by decide)

/-- C3 counterexample: an inline edit whose description is empty but
whose amount text parses is not aborted — `saveTransaction` issues the
update fetch (with the empty description in the payload) and shows no
validation toast; likewise an amount text `"Infinity"`, which parses
to a non-finite number, passes the `Number.isNaN` check and the fetch
is issued. -/
theorem save_validation_counterexample :
    jsTrim "" = "" ∧
    (saveTransactionRequest "tok"
        { id := 7, desc := "", amountText := "5", txType := "expense" }).calls ≠ [] ∧
    (saveTransactionRequest "tok"
        { id := 7, desc := "", amountText := "5", txType := "expense" }).toasts = [] ∧
    jsParseFloat "Infinity" = JsNum.inf false ∧
    (saveTransactionRequest "tok"
        { id := 8, desc := "gain", amountText := "Infinity", txType := "income" }).calls ≠ [] ∧
    (saveTransactionRequest "tok"
        { id := 8, desc := "gain", amountText := "Infinity", txType := "income" }).toasts = [] := by
  refine ⟨rfl, ?_, ?_, ?_, ?_, ?_⟩ <;> decide

/-- C3 amended: the only client-side validation of an inline edit is
the `Number.isNaN(parseFloat(...))` check on the amount: when
`parseFloat` of the cleaned amount text is NaN the save is aborted
with the "Invalid amount entered" error toast and no fetch (in
particular for amount text `"abc"`); when it is not NaN — including a
non-finite parse such as `"Infinity"` — exactly one update fetch is
issued regardless of the description. -/
theorem save_validation_amended :
    (∀ (token : String) (row : TxEditRow),
        jsParseFloat (replaceFirst (jsTrim row.amountText) "$") = JsNum.nan →
        (saveTransactionRequest token row).calls = [] ∧
        (saveTransactionRequest token row).toasts =
          [{ message := "Invalid amount entered", severity := "error" }]) ∧
    jsParseFloat "abc" = JsNum.nan ∧
    jsParseFloat "Infinity" ≠ JsNum.nan ∧
    (∀ (token : String) (row : TxEditRow),
        jsParseFloat (replaceFirst (jsTrim row.amountText) "$") ≠ JsNum.nan →
        (saveTransactionRequest token row).calls.length = 1) := by
  refine ⟨?_, by decide, by decide, ?_⟩
  · intro token row h
    simp only [saveTransactionRequest]
    rw [if_pos h]
    exact ⟨rfl, rfl⟩
  · intro token row h
    simp only [saveTransactionRequest]
    rw [if_neg h]
    rfl

/-- Witness for C3's amended statement: amount text `"abc"` aborts
with the validation toast and no network call. -/
theorem save_validation_amended_witness :
    (saveTransactionRequest "tok"
        { id := 3, desc := "lunch", amountText := "abc", txType := "expense" }).calls = [] ∧
    (saveTransactionRequest "tok"
        { id := 3, desc := "lunch", amountText := "abc", txType := "expense" }).toasts =
      [{ message := "Invalid amount entered", severity := "error" }] := by
  exact save_validation_amended.1 "tok"
    { id := 3, desc := "lunch", amountText := "abc", txType := "expense" } (by decide)

/-- C5: the chart refresher is single-flight — entering a second
refresh while the first's controller is current aborts the first's
controller and installs a distinct, unaborted one — and the fallback
message is drawn exactly on non-abort failures: an aborted
(superseded) fetch never draws it, while a network error, a non-2xx
status, or a non-number `income`/`expense` field always does. -/
theorem chart_single_flight_fallback :
    (∀ g : ChartGlobals,
        (∀ a ∈ g.abortedIds, a < g.nextId) →
        (∀ c, g.current = some c → c < g.nextId) →
        (enterRefresh g).2 ∈ (enterRefresh (enterRefresh g).1).1.abortedIds ∧
        (enterRefresh (enterRefresh g).1).2 ∉ (enterRefresh (enterRefresh g).1).1.abortedIds ∧
        (enterRefresh g).2 ≠ (enterRefresh (enterRefresh g).1).2) ∧
    (updateChartDataRun .aborted).fallbackDrawn = false ∧
    (∀ fr : FetchResult, (updateChartDataRun fr).fallbackDrawn = specNonAbortFailure fr) := by
  refine ⟨?_, rfl, ?_⟩
  · intro g hA hC
    cases hg : g.current with
    | none =>
        refine ⟨?_, ?_, ?_⟩
        · simp [enterRefresh, abortCurrent, hg]
        · simp only [enterRefresh, abortCurrent, hg]
          intro hmem
          simp only [List.mem_cons] at hmem
          rcases hmem with h | h
          · omega
          · exact absurd (hA _ h) (by omega)
        · simp [enterRefresh, abortCurrent, hg]
    | some c =>
        have hc := hC c hg
        refine ⟨?_, ?_, ?_⟩
        · simp [enterRefresh, abortCurrent, hg]
        · simp only [enterRefresh, abortCurrent, hg]
          intro hmem
          simp only [List.mem_cons] at hmem
          rcases hmem with h | h | h
          · omega
          · omega
          · exact absurd (hA _ h) (by omega)
        · simp [enterRefresh, abortCurrent, hg]
  · intro fr
    cases fr with
    | aborted => rfl
    | netFail => rfl
    | got r =>
        rcases r with ⟨ok, inc, exp⟩
        cases ok <;> cases inc <;> cases exp <;> rfl

/-- Witness for C5 at the page-load state (no controller, nothing
aborted): the first refresh's controller is aborted by the second and
the two differ. -/
theorem chart_single_flight_fallback_witness :
    (enterRefresh ⟨0, none, []⟩).2 ∈
      (enterRefresh (enterRefresh ⟨0, none, []⟩).1).1.abortedIds ∧
    (enterRefresh (enterRefresh ⟨0, none, []⟩).1).2 ∉
      (enterRefresh (enterRefresh ⟨0, none, []⟩).1).1.abortedIds ∧
    (enterRefresh ⟨0, none, []⟩).2 ≠ (enterRefresh (enterRefresh ⟨0, none, []⟩).1).2 := by
  exact chart_single_flight_fallback.1 ⟨0, none, []⟩ (by simp) (by simp)

/-- C9 counterexample: a chart refresh whose fetch fails with a
network error issues exactly one fetch — it is not retried — and the
fallback is drawn immediately after that single attempt. -/
theorem chart_no_retry_counterexample :
    (updateChartDataRun .netFail).calls.length = 1 ∧
    ¬ 2 ≤ (updateChartDataRun .netFail).calls.length ∧
    (updateChartDataRun .netFail).fallbackDrawn = true := by
  refine ⟨rfl, ?_, rfl⟩
  decide

lemma saveNoteRun_fail_step (nid : Nat) (content : String) (resps : Nat → NoteResp)
    (retries : Nat) (h : resps retries ≠ NoteResp.ok) (hlt : retries < MAX_RETRIES) :
    (saveNoteRun nid content resps retries).1 =
      noteSaveCallV1 nid content :: (saveNoteRun nid content resps (retries + 1)).1 ∧
    (saveNoteRun nid content resps retries).2 =
      (saveNoteRun nid content resps (retries + 1)).2 := by
  have hunf : saveNoteRun nid content resps retries =
      (let call := noteSaveCallV1 nid content
       match resps retries with
       | .ok => ([call], [{ message := "Note saved", severity := "info" }])
       | .httpErr msg =>
           if _h : retries < MAX_RETRIES then
             let r := saveNoteRun nid content resps (retries + 1)
             (call :: r.1, r.2)
           else ([call], [{ message := msg.getD "Failed to save note", severity := "error" }])
       | .netErr =>
           if _h : retries < MAX_RETRIES then
             let r := saveNoteRun nid content resps (retries + 1)
             (call :: r.1, r.2)
           else ([call], [{ message := "Error saving note", severity := "error" }])) := by
    rw [saveNoteRun]
  cases e : resps retries with
  | ok => exact absurd e h
  | httpErr m =>
      rw [hunf, e]
      simp only [dif_pos hlt]
      constructor <;> trivial
  | netErr =>
      rw [hunf, e]
      simp only [dif_pos hlt]
      constructor <;> trivial

lemma saveNoteRun_last_fail (nid : Nat) (content : String) (resps : Nat → NoteResp)
    (h : resps 2 ≠ NoteResp.ok) :
    (saveNoteRun nid content resps 2).1.length = 1 ∧
    ((saveNoteRun nid content resps 2).2.all (fun t => t.severity == "error")) = true ∧
    (saveNoteRun nid content resps 2).2.length = 1 := by
  cases e : resps 2 with
  | ok => exact absurd e h
  | httpErr m =>
      rw [saveNoteRun, e]
      refine ⟨?_, ?_, ?_⟩ <;> simp [MAX_RETRIES]
  | netErr =>
      rw [saveNoteRun, e]
      refine ⟨?_, ?_, ?_⟩ <;> simp [MAX_RETRIES]

lemma saveNoteRun_last_ok (nid : Nat) (content : String) (resps : Nat → NoteResp)
    (h : resps 2 = NoteResp.ok) :
    saveNoteRun nid content resps 2 =
      ([noteSaveCallV1 nid content],
       [{ message := "Note saved", severity := "info" }]) := by
  rw [saveNoteRun, h]

/-- C9 amended: a note save (`saveNoteContent`) is retried
automatically up to `MAX_RETRIES = 2` extra attempts and only then
surfaces an error toast (three fetches total when every attempt
fails; a success on the last allowed attempt still totals three
fetches and surfaces the success toast); a chart refresh performs
exactly one fetch per run with no retry; a transaction update's
failure branches issue no further call (no client-side retry). -/
theorem retry_policy_amended :
    (∀ (nid : Nat) (content : String) (resps : Nat → NoteResp),
        (∀ i, i ≤ 2 → resps i ≠ NoteResp.ok) →
        (saveNoteRun nid content resps 0).1.length = 3 ∧
        ((saveNoteRun nid content resps 0).2.all
          (fun t => t.severity == "error")) = true ∧
        (saveNoteRun nid content resps 0).2.length = 1) ∧
    (∀ (nid : Nat) (content : String) (resps : Nat → NoteResp),
        resps 0 ≠ NoteResp.ok → resps 1 ≠ NoteResp.ok → resps 2 = NoteResp.ok →
        (saveNoteRun nid content resps 0).1.length = 3 ∧
        (saveNoteRun nid content resps 0).2 =
          [{ message := "Note saved", severity := "info" }]) ∧
    (∀ fr : FetchResult, (updateChartDataRun fr).calls.length = 1) ∧
    (∀ msg : Option String,
        (saveTransactionResponse (TxSaveResp.httpErr msg)).calls = []) ∧
    (saveTransactionResponse TxSaveResp.netErr).calls = [] := by
  refine ⟨?_, ?_, fun fr => rfl, fun msg => rfl, rfl⟩
  · intro nid content resps h
    obtain ⟨s01, s02⟩ := saveNoteRun_fail_step nid content resps 0 (h 0 (by omega)) (by decide)
    obtain ⟨s11, s12⟩ := saveNoteRun_fail_step nid content resps 1 (h 1 (by omega)) (by decide)
    obtain ⟨t1, t2, t3⟩ := saveNoteRun_last_fail nid content resps (h 2 (by omega))
    refine ⟨?_, ?_, ?_⟩
    · rw [s01, s11]
      simp [t1]
    · rw [s02, s12]
      exact t2
    · rw [s02, s12]
      exact t3
  · intro nid content resps h0 h1 h2
    obtain ⟨s01, s02⟩ := saveNoteRun_fail_step nid content resps 0 h0 (by decide)
    obtain ⟨s11, s12⟩ := saveNoteRun_fail_step nid content resps 1 h1 (by decide)
    have t := saveNoteRun_last_ok nid content resps h2
    refine ⟨?_, ?_⟩
    · rw [s01, s11, t]
      rfl
    · rw [s02, s12, t]

/-- Witness for C9's amended statement with a server that fails every
attempt: three fetches, one final error toast. -/
theorem retry_policy_amended_witness :
    (saveNoteRun 5 "hello" (fun _ => NoteResp.netErr) 0).1.length = 3 ∧
    ((saveNoteRun 5 "hello" (fun _ => NoteResp.netErr) 0).2.all
      (fun t => t.severity == "error")) = true ∧
    (saveNoteRun 5 "hello" (fun _ => NoteResp.netErr) 0).2.length = 1 := by
  exact retry_policy_amended.1 5 "hello" (fun _ => NoteResp.netErr)
    (fun i _ => by simp)

end Artha
